import Mathlib

/-!
Shallow embedding of the session/transport layer of the resend-mcp server.

The embedded code:
* `src/transports/http.ts` (`runHttp`): the Streamable-HTTP session multiplexer —
  the module-level `sessions` record, `sendJsonRpcError`, `extractBearerToken`,
  the per-request branch logic, the `onsessioninitialized` / `onclose` callbacks,
  and the SIGINT/SIGTERM `shutdown` handler.
* `src/index.ts`: the entry point's own `process.on('SIGINT'/'SIGTERM', () => process.exit(0))`
  handlers, registered at module load (before `runHttp` registers `shutdown`).
* `src/transports/stdio.ts` (`runStdio`): the local transport.

JavaScript strings are modelled as Lean `String`s with the JS operations
(`startsWith`, `slice`, `trim`, truthiness) defined at the code-unit (`List Char`)
level so that everything is executable and kernel-decidable.

External collaborators are modelled by their documented contracts:
* `new Resend(key)` / `createMcpServer` construct fresh, independent objects; the
  model counts constructions and tags each protocol-server instance with a serial
  number so that "never shared" is expressible.
* `StreamableHTTPServerTransport`: `sessionIdGenerator` is invoked and
  `onsessioninitialized(sid)` fires exactly when the initialize handshake
  completes; an aborted handshake fires neither; `onclose` fires when the channel
  closes, at which point `transport.sessionId` is the minted id (or undefined if
  the handshake never completed). `node:crypto.randomUUID` is modelled as an
  injective fresh-identifier source indexed by how many identifiers the process
  has minted so far.
-/

namespace ResendMcp

/-- JS `s.startsWith(p)`: code-unit prefix test. -/
def jsStartsWith (s p : String) : Bool := p.data.isPrefixOf s.data

/-- JS `s.slice(n)`: drop the first `n` code units. -/
def jsSlice (s : String) (n : Nat) : String := ⟨s.data.drop n⟩

/-- JS `s.trim()`: strip whitespace from both ends. -/
def jsTrim (s : String) : String :=
  ⟨((s.data.dropWhile Char.isWhitespace).reverse.dropWhile Char.isWhitespace).reverse⟩

/-- JS truthiness of `req.headers[h]` (a `string | undefined`): `undefined` and `""`
are falsy, every other string is truthy. -/
def headerTruthy : Option String → Bool
  | none => false
  | some s => s != ""

/-- Embeds `extractBearerToken` from `src/transports/http.ts`:
`if (!header || !header.startsWith('Bearer ')) return null;
 const token = header.slice('Bearer '.length).trim(); return token || null;`
(`'Bearer '.length` is 7; a falsy — empty — header also fails the `startsWith` test,
so the `!header` guard is absorbed by it). -/
def extractBearerToken (authorization : Option String) : Option String :=
  match authorization with
  | none => none
  | some header =>
    if jsStartsWith header "Bearer " then
      let token := jsTrim (jsSlice header 7)
      if token = "" then none else some token
    else
      none

/-- One active session's server-side state, as stored (via its transport) in the
`sessions` record: the per-session Resend client handle (`new Resend(apiKey)`),
the serial number of the `createMcpServer` instance bound to it, and whether a
`close()` on its channel throws (environment behaviour, used by the shutdown
model). -/
structure Session where
  apiKey : String
  serverInstance : Nat
  closeFails : Bool
  deriving Repr, DecidableEq

/-- The JSON-RPC error envelope `{ jsonrpc, error: { code, message }, id }`
written by the HTTP transport (`id` is always `null`, modelled as `none`). -/
structure JsonRpcErrorBody where
  jsonrpc : String
  code : Int
  message : String
  rpcId : Option Int
  deriving Repr, DecidableEq

/-- Outcome of one `/mcp` request in the model: routed to an existing session's
transport, a successful initialize (session established and registered), an
initialize whose handshake aborted, or a JSON-RPC error envelope with an HTTP
status code. -/
inductive HttpResponse where
  | routed (sid : String) (s : Session)
  | initialized (sid : String) (s : Session)
  | handshakeFailed
  | jsonError (status : Nat) (body : JsonRpcErrorBody)
  deriving Repr, DecidableEq

/-- Embeds `sendJsonRpcError` from `src/transports/http.ts`: a given HTTP status
with a fixed `-32000` code and `id: null`. -/
def sendJsonRpcError (statusCode : Nat) (message : String) : HttpResponse :=
  .jsonError statusCode
    { jsonrpc := "2.0", code := -32000, message := message, rpcId := none }

/-- The inline 404 envelope of the `sessionId && !sessions[sessionId]` branch
(the one response built without `sendJsonRpcError`, with code `-32001`). -/
def sessionNotFoundBody : JsonRpcErrorBody :=
  { jsonrpc := "2.0", code := -32001, message := "Session not found", rpcId := none }

/-- Own-key lookup in the `sessions` record: the registered bindings of the
string-keyed JS object, which is what registration and `delete` operate on.
The raw JS property read `sessions[sessionId]` additionally sees the object
literal's prototype chain; that full read is modelled separately by
`readSessionsProperty`. -/
def lookupSession : List (String × Session) → String → Option Session
  | [], _ => none
  | (k, v) :: rest, sid => if k = sid then some v else lookupSession rest sid

/-- JS `delete sessions[sid]`: remove the binding for `sid` (a JS object holds at
most one binding per key; removing every occurrence keeps the model total). -/
def removeSession : List (String × Session) → String → List (String × Session)
  | [], _ => []
  | (k, v) :: rest, sid =>
    if k = sid then removeSession rest sid else (k, v) :: removeSession rest sid

/-- JS `sessions[sid] = transport`: bind `sid`, replacing any previous binding. -/
def insertSession (l : List (String × Session)) (sid : String) (s : Session) :
    List (String × Session) :=
  (sid, s) :: removeSession l sid

/-- Model of `node:crypto.randomUUID` as used by `sessionIdGenerator`: an
injective fresh-identifier source, indexed by the number of identifiers the
process has minted so far (the `n`-th identifier is a string of `n + 1` `'u'`s,
so distinct indices give distinct, never-empty identifiers). -/
def randomUUIDModel (n : Nat) : String := ⟨List.replicate (n + 1) 'u'⟩

/-- Whole-process state of the HTTP transport: the `sessions` record, how many
session identifiers have been minted, and construction counters for
`createMcpServer` instances, `new Resend(...)` client handles and
`new StreamableHTTPServerTransport(...)` channels. -/
structure ServerState where
  sessions : List (String × Session)
  minted : Nat
  nextInstance : Nat
  clientsConstructed : Nat
  transportsConstructed : Nat
  deriving Repr, DecidableEq

/-- State at process start: empty registry, nothing constructed. -/
def initialState : ServerState :=
  { sessions := [], minted := 0, nextInstance := 0,
    clientsConstructed := 0, transportsConstructed := 0 }

/-- Every session identifier minted so far in the process (newest last);
identifiers of already-closed sessions stay in this history. -/
def mintedIds (st : ServerState) : List String :=
  (List.range st.minted).map randomUUIDModel

/-- One inbound HTTP request to `/mcp`: its method, the `mcp-session-id` header,
the `Authorization` header, and whether `isInitializeRequest(req.body)` holds. -/
structure Request where
  method : String
  mcpSessionId : Option String
  authorization : Option String
  bodyIsInitialize : Bool
  deriving Repr, DecidableEq

/-- The create path of `runHttp` (the `!sessionId && req.method === 'POST' &&
isInitializeRequest(req.body)` branch): extract the bearer token — on failure
reply 401 before any client/transport/server is constructed — otherwise
construct the Resend client, transport and protocol server, connect, and let
the transport process the initialize handshake: if it completes,
`sessionIdGenerator` mints a fresh id and `onsessioninitialized` registers the
transport under it; if it aborts, nothing is registered. -/
def createPath (st : ServerState) (req : Request) (handshakeOk : Bool) :
    ServerState × HttpResponse :=
  match extractBearerToken req.authorization with
  | none =>
      (st, sendJsonRpcError 401
        "Unauthorized: provide a Resend API key via Authorization: Bearer <key>")
  | some apiKey =>
      let st1 : ServerState :=
        { st with
          clientsConstructed := st.clientsConstructed + 1
          transportsConstructed := st.transportsConstructed + 1
          nextInstance := st.nextInstance + 1 }
      if handshakeOk then
        let newSid := randomUUIDModel st.minted
        let s : Session :=
          { apiKey := apiKey, serverInstance := st.nextInstance, closeFails := false }
        ({ st1 with
            sessions := insertSession st1.sessions newSid s
            minted := st.minted + 1 },
         .initialized newSid s)
      else
        (st1, .handshakeFailed)

/-- Embeds the `/mcp` request handler of `runHttp` (`src/transports/http.ts`):
`if (sessionId && sessions[sessionId]) … else if (!sessionId && req.method === 'POST'
&& isInitializeRequest(req.body)) … else if (sessionId && !sessions[sessionId]) 404
else 400`. `handshakeOk` is the environment's verdict on the initialize handshake
(only consulted on the create path). -/
def handleRequest (st : ServerState) (req : Request) (handshakeOk : Bool) :
    ServerState × HttpResponse :=
  let sid := req.mcpSessionId.getD ""
  if headerTruthy req.mcpSessionId then
    match lookupSession st.sessions sid with
    | some s => (st, .routed sid s)
    | none => (st, .jsonError 404 sessionNotFoundBody)
  else if req.method == "POST" && req.bodyIsInitialize then
    createPath st req handshakeOk
  else
    (st, sendJsonRpcError 400 "Bad Request: No valid session ID provided")

/-- Embeds the transport's `onclose` callback:
`const sid = transport.sessionId; if (sid && sessions[sid]) delete sessions[sid];`
(`transport.sessionId` is `undefined` — `none` — if the handshake never completed). -/
def oncloseHandler (sessions : List (String × Session))
    (transportSessionId : Option String) : List (String × Session) :=
  match transportSessionId with
  | none => sessions
  | some sid =>
      if sid != "" && (lookupSession sessions sid).isSome then
        removeSession sessions sid
      else
        sessions

/-- Property names a plain object literal inherits from `Object.prototype`.
The `sessions` record is declared as the object literal `{}`, so reading any of
these names on it yields the inherited member (a function, or for `__proto__`
the prototype object) — a truthy, non-transport value. -/
def objectPrototypeKeys : List String :=
  ["constructor", "hasOwnProperty", "isPrototypeOf", "propertyIsEnumerable",
   "toLocaleString", "toString", "valueOf", "__proto__", "__defineGetter__",
   "__defineSetter__", "__lookupGetter__", "__lookupSetter__"]

/-- Result of the JS property read `sessions[sessionId]` on the object literal:
an own key yields its registered transport; an `Object.prototype` member name
yields the inherited truthy non-transport value; anything else is undefined. -/
inductive SessionsRead where
  | ownTransport (s : Session)
  | inherited
  | undefinedRead
  deriving Repr, DecidableEq

/-- The full JS property read `sessions[sid]`, prototype chain included: own
keys shadow the prototype; otherwise `Object.prototype` member names resolve
to the inherited member. -/
def readSessionsProperty (m : List (String × Session)) (sid : String) :
    SessionsRead :=
  match lookupSession m sid with
  | some s => .ownTransport s
  | none => if sid ∈ objectPrototypeKeys then .inherited else .undefinedRead

/-- Outcome of one `/mcp` request when the property read is modelled in full:
either a normal response, or the TypeError thrown by calling
`transport.handleRequest` on an inherited non-transport value. -/
inductive HttpOutcome where
  | ok (r : HttpResponse)
  | typeErrorCrash
  deriving Repr, DecidableEq

/-- The `/mcp` handler of `runHttp` again, now with the branch guards
`sessions[sessionId]` / `!sessions[sessionId]` modelled as the full JS property
read (`readSessionsProperty`): an inherited `Object.prototype` member is truthy,
so such a request takes the routing branch and `await transport.handleRequest(...)`
throws a TypeError (registry unchanged) instead of reaching the 404 branch.
Outside `objectPrototypeKeys` this agrees with `handleRequest`
(`handleRequestFull_agrees_outside_prototype`). -/
def handleRequestFull (st : ServerState) (req : Request) (handshakeOk : Bool) :
    ServerState × HttpOutcome :=
  let sid := req.mcpSessionId.getD ""
  if headerTruthy req.mcpSessionId then
    match readSessionsProperty st.sessions sid with
    | .ownTransport s => (st, .ok (.routed sid s))
    | .inherited => (st, .typeErrorCrash)
    | .undefinedRead => (st, .ok (.jsonError 404 sessionNotFoundBody))
  else if req.method == "POST" && req.bodyIsInitialize then
    let r := createPath st req handshakeOk
    (r.1, .ok r.2)
  else
    (st, .ok (sendJsonRpcError 400 "Bad Request: No valid session ID provided"))

/-- Observable steps of the shutdown sequence: a `close()` attempt on one
session's transport (recording whether it threw), the `delete sessions[sid]`
that follows it, the `server.close()` on the listener, and `process.exit`. -/
inductive ShutdownEvent where
  | closeAttempt (sid : String) (closeFailed : Bool)
  | removedFromRegistry (sid : String)
  | listenerClosed
  | processExit (code : Nat)
  deriving Repr, DecidableEq

/-- The `for (const sid of Object.keys(sessions))` loop of `shutdown` in
`runHttp`: for each key, await `sessions[sid].close()` inside a try whose catch
ignores the error (a throwing close is recorded but suppressed), then
`delete sessions[sid]`.
Returns the registry left after the loop together with the event trace. -/
def drainLoop : List String → List (String × Session) →
    List (String × Session) × List ShutdownEvent
  | [], m => (m, [])
  | sid :: rest, m =>
    let closeFailed :=
      match lookupSession m sid with
      | some s => s.closeFails
      | none => false
    let r := drainLoop rest (removeSession m sid)
    (r.1, .closeAttempt sid closeFailed :: .removedFromRegistry sid :: r.2)

/-- Result of delivering a termination signal: the registry as it stands at the
moment the process exits (or after all handlers, if none exited), the event
trace, and the exit code if `process.exit` was invoked. -/
structure ShutdownOutcome where
  registryAtExit : List (String × Session)
  events : List ShutdownEvent
  exited : Option Nat
  deriving Repr, DecidableEq

/-- Embeds the `shutdown` closure of `runHttp`: drain every registry entry
(close errors suppressed), then `server.close()`, then `process.exit(0)`. -/
def shutdownHandler (m : List (String × Session)) : ShutdownOutcome :=
  let r := drainLoop (m.map Prod.fst) m
  { registryAtExit := r.1
    events := r.2 ++ [.listenerClosed, .processExit 0]
    exited := some 0 }

/-- The two kinds of SIGINT/SIGTERM listener the program registers:
`src/index.ts`'s `() => process.exit(0)` and `runHttp`'s graceful `shutdown`. -/
inductive SignalListener where
  | exitImmediately
  | gracefulShutdown
  deriving Repr, DecidableEq

/-- Listeners registered for SIGINT (and likewise SIGTERM) in HTTP mode, in
registration order: `src/index.ts` registers `() => process.exit(0)` at module
load, before `runHttp` runs and registers `shutdown`. -/
def httpModeSignalListeners : List SignalListener :=
  [.exitImmediately, .gracefulShutdown]

/-- Behaviour of one signal listener on the current registry. -/
def runSignalListener : SignalListener → List (String × Session) → ShutdownOutcome
  | .exitImmediately, m =>
      { registryAtExit := m, events := [.processExit 0], exited := some 0 }
  | .gracefulShutdown, m => shutdownHandler m

/-- Node delivers a signal to its listeners synchronously in registration order;
`process.exit` never returns, so once a listener exits the process the
remaining listeners are not invoked. -/
def emitSignal : List SignalListener → List (String × Session) → ShutdownOutcome
  | [], m => { registryAtExit := m, events := [], exited := none }
  | h :: rest, m =>
    let o := runSignalListener h m
    match o.exited with
    | some _ => o
    | none =>
      let o2 := emitSignal rest o.registryAtExit
      { registryAtExit := o2.registryAtExit
        events := o.events ++ o2.events
        exited := o2.exited }

/-- Observable effects of the stdio (local) transport path. The vocabulary
includes the session-registry operations and the authentication check so that
their absence from the stdio trace is a statement about this program, not an
artefact of the alphabet. -/
inductive StdioEffect where
  | constructServer (instanceId : Nat)
  | constructStdioChannel
  | connectChannel
  | logLine (msg : String)
  | registryInsert (sid : String)
  | registryLookup (sid : String)
  | registryRemove (sid : String)
  | authCheck
  deriving Repr, DecidableEq

/-- Embeds `runStdio` (`src/transports/stdio.ts`), which the entry point calls
exactly once for the process lifetime in stdio mode: build one protocol server
(`createMcpServer`), one `StdioServerTransport`, connect them, log a line. It
never touches the session registry and performs no authentication check. -/
def runStdioTrace : List StdioEffect :=
  [.constructServer 0, .constructStdioChannel, .connectChannel,
   .logLine "Resend MCP Server running on stdio"]

/-- Classifier: protocol-server constructions in a stdio trace. -/
def isServerConstruction : StdioEffect → Bool
  | .constructServer _ => true
  | _ => false

/-- Classifier: stdio-channel constructions in a stdio trace. -/
def isChannelConstruction : StdioEffect → Bool
  | .constructStdioChannel => true
  | _ => false

/-- Classifier: session-registry operations (create, read or remove) in a
stdio trace. -/
def isRegistryEffect : StdioEffect → Bool
  | .registryInsert _ => true
  | .registryLookup _ => true
  | .registryRemove _ => true
  | _ => false

/-- Classifier: authentication checks in a stdio trace. -/
def isAuthCheck : StdioEffect → Bool
  | .authCheck => true
  | _ => false

/-- States of the HTTP transport reachable from process start by handling
requests (with either handshake outcome) and by channel-close callbacks. -/
inductive Reachable : ServerState → Prop where
  | init : Reachable initialState
  | step (st : ServerState) (req : Request) (hok : Bool) :
      Reachable st → Reachable (handleRequest st req hok).1
  | closeStep (st : ServerState) (tsid : Option String) :
      Reachable st →
      Reachable { st with sessions := oncloseHandler st.sessions tsid }

/-- Well-formedness invariant of reachable HTTP-transport states: every
registered session identifier was minted, every bound protocol-server instance
number is below the construction counter, and distinct sessions are bound to
distinct protocol-server instances. -/
structure WF (st : ServerState) : Prop where
  keysMinted : ∀ sid s, lookupSession st.sessions sid = some s → sid ∈ mintedIds st
  instBound : ∀ sid s, lookupSession st.sessions sid = some s →
    s.serverInstance < st.nextInstance
  instDistinct : ∀ sid1 sid2 s1 s2,
    lookupSession st.sessions sid1 = some s1 →
    lookupSession st.sessions sid2 = some s2 →
    sid1 ≠ sid2 → s1.serverInstance ≠ s2.serverInstance

/-- Responses on the create path (the branch for a session-less POST initialize
request): the 401 rejection, a successful initialize, or an aborted handshake. -/
def isCreatePathOutcome : HttpResponse → Bool
  | .initialized _ _ => true
  | .handshakeFailed => true
  | .jsonError 401 _ => true
  | _ => false

/-- Fixture: a well-formed initialize request carrying the credential `secretA`. -/
def reqInitA : Request :=
  { method := "POST", mcpSessionId := none,
    authorization := some "Bearer secretA", bodyIsInitialize := true }

/-- Fixture: a second initialize request, carrying the credential `secretB`. -/
def reqInitB : Request :=
  { method := "POST", mcpSessionId := none,
    authorization := some "Bearer secretB", bodyIsInitialize := true }

/-- Fixture: the session record minted for `reqInitA` at process start. -/
def sessionA : Session :=
  { apiKey := "secretA", serverInstance := 0, closeFails := false }

/-- Fixture: the state after the process handles `reqInitA` successfully. -/
def stOneSession : ServerState := (handleRequest initialState reqInitA true).1

/-- Fixture: a continuation request for the session minted from `reqInitA`
(the model's first minted identifier is `"u"`), carrying no credential. -/
def contReqA : Request :=
  { method := "POST", mcpSessionId := some "u",
    authorization := none, bodyIsInitialize := false }

/-- Fixture: a registry holding one active session, used for the shutdown
scenario. -/
def registryOneSession : List (String × Session) := [("u", sessionA)]

/-- Fixture: a request whose `mcp-session-id` header is the never-registered
identifier `"constructor"`, an `Object.prototype` member name. -/
def reqProtoKey : Request :=
  { method := "POST", mcpSessionId := some "constructor",
    authorization := none, bodyIsInitialize := false }

theorem lookupSession_removeSession (l : List (String × Session)) (r sid : String) :
    lookupSession (removeSession l r) sid =
      if sid = r then none else lookupSession l sid := by
  induction l with
  | nil => simp [removeSession, lookupSession]
  | cons p rest ih =>
    obtain ⟨k, v⟩ := p
    by_cases hk : k = r
    · subst hk
      by_cases hs : sid = k
      · subst hs
        simp [removeSession, lookupSession, ih]
      · have hk2 : k ≠ sid := fun h => hs h.symm
        simp [removeSession, lookupSession, ih, hs, hk2]
    · by_cases hs : k = sid
      · have hne : sid ≠ r := by rw [← hs]; exact hk
        simp [removeSession, lookupSession, hk, hs, hne]
      · simp [removeSession, lookupSession, hk, hs, ih]

theorem lookupSession_insertSession (l : List (String × Session)) (k : String)
    (v : Session) (sid : String) :
    lookupSession (insertSession l k v) sid =
      if sid = k then some v else lookupSession l sid := by
  by_cases hs : sid = k
  · subst hs
    simp [insertSession, lookupSession]
  · have hk : k ≠ sid := fun h => hs h.symm
    simp [insertSession, lookupSession, hk, hs, lookupSession_removeSession]

theorem removeSession_idem (l : List (String × Session)) (r : String) :
    removeSession (removeSession l r) r = removeSession l r := by
  induction l with
  | nil => simp [removeSession]
  | cons p rest ih =>
    obtain ⟨k, v⟩ := p
    by_cases hk : k = r
    · simp [removeSession, hk, ih]
    · simp [removeSession, hk, ih]

theorem randomUUIDModel_injective : Function.Injective randomUUIDModel := by
  intro m n h
  have hlen : (randomUUIDModel m).data.length = (randomUUIDModel n).data.length := by
    rw [h]
  have h2 : m + 1 = n + 1 := by
    simpa [randomUUIDModel] using hlen
  omega

theorem randomUUIDModel_ne_empty (n : Nat) : randomUUIDModel n ≠ "" := by
  intro h
  have hlen : (randomUUIDModel n).data.length = ("" : String).data.length := by
    rw [h]
  simp [randomUUIDModel] at hlen

theorem mintedIds_range_succ (n : Nat) :
    (List.range (n + 1)).map randomUUIDModel =
      (List.range n).map randomUUIDModel ++ [randomUUIDModel n] := by
  rw [List.range_succ, List.map_append]
  rfl

theorem randomUUIDModel_minted_fresh (st : ServerState) :
    randomUUIDModel st.minted ∉ mintedIds st := by
  intro h
  obtain ⟨i, hi, hEq⟩ := List.mem_map.1 h
  have h1 : i = st.minted := randomUUIDModel_injective hEq
  have h2 : i < st.minted := List.mem_range.1 hi
  omega

theorem handleRequest_found (st : ServerState) (req : Request) (hok : Bool)
    (sid : String) (s : Session)
    (hhdr : req.mcpSessionId = some sid) (hne : sid ≠ "")
    (hlook : lookupSession st.sessions sid = some s) :
    handleRequest st req hok = (st, .routed sid s) := by
  simp [handleRequest, hhdr, headerTruthy, hne, hlook]

theorem handleRequest_notFound (st : ServerState) (req : Request) (hok : Bool)
    (sid : String)
    (hhdr : req.mcpSessionId = some sid) (hne : sid ≠ "")
    (hlook : lookupSession st.sessions sid = none) :
    handleRequest st req hok = (st, .jsonError 404 sessionNotFoundBody) := by
  simp [handleRequest, hhdr, headerTruthy, hne, hlook]

theorem handleRequest_create (st : ServerState) (req : Request) (hok : Bool)
    (hhdr : headerTruthy req.mcpSessionId = false)
    (hpost : req.method = "POST") (hinit : req.bodyIsInitialize = true) :
    handleRequest st req hok = createPath st req hok := by
  simp [handleRequest, hhdr, hpost, hinit]

theorem handleRequest_reject400 (st : ServerState) (req : Request) (hok : Bool)
    (hhdr : headerTruthy req.mcpSessionId = false)
    (hnot : ¬(req.method = "POST" ∧ req.bodyIsInitialize = true)) :
    handleRequest st req hok =
      (st, sendJsonRpcError 400 "Bad Request: No valid session ID provided") := by
  have hb : (req.method == "POST" && req.bodyIsInitialize) = false := by
    by_cases hm : req.method = "POST"
    · have : req.bodyIsInitialize = false := by
        cases hbi : req.bodyIsInitialize
        · rfl
        · exact absurd ⟨hm, hbi⟩ hnot
      simp [this]
    · simp [hm]
  simp [handleRequest, hhdr, hb]

theorem createPath_unauthorized (st : ServerState) (req : Request) (hok : Bool)
    (hauth : extractBearerToken req.authorization = none) :
    createPath st req hok =
      (st, sendJsonRpcError 401
        "Unauthorized: provide a Resend API key via Authorization: Bearer <key>") := by
  simp [createPath, hauth]

theorem createPath_success (st : ServerState) (req : Request) (apiKey : String)
    (hauth : extractBearerToken req.authorization = some apiKey) :
    createPath st req true =
      ({ sessions := insertSession st.sessions (randomUUIDModel st.minted)
            { apiKey := apiKey, serverInstance := st.nextInstance, closeFails := false }
         minted := st.minted + 1
         nextInstance := st.nextInstance + 1
         clientsConstructed := st.clientsConstructed + 1
         transportsConstructed := st.transportsConstructed + 1 },
       .initialized (randomUUIDModel st.minted)
         { apiKey := apiKey, serverInstance := st.nextInstance, closeFails := false }) := by
  simp [createPath, hauth]

theorem createPath_aborted (st : ServerState) (req : Request) (apiKey : String)
    (hauth : extractBearerToken req.authorization = some apiKey) :
    createPath st req false =
      ({ st with
          clientsConstructed := st.clientsConstructed + 1
          transportsConstructed := st.transportsConstructed + 1
          nextInstance := st.nextInstance + 1 },
       .handshakeFailed) := by
  simp [createPath, hauth]

theorem jsStartsWith_append (t : String) :
    jsStartsWith ("Bearer " ++ t) "Bearer " = true := by
  simp [jsStartsWith, String.data_append, List.isPrefixOf_iff_prefix]

theorem jsSlice_append (t : String) : jsSlice ("Bearer " ++ t) 7 = t := by
  apply String.ext
  simp only [jsSlice, String.data_append]
  have h7 : ("Bearer ".data).length = 7 := by decide
  rw [← h7, List.drop_left]

theorem jsStartsWith_decomp (h : String) (hh : jsStartsWith h "Bearer " = true) :
    h = "Bearer " ++ jsSlice h 7 := by
  simp only [jsStartsWith, List.isPrefixOf_iff_prefix] at hh
  obtain ⟨t, ht⟩ := hh
  have hEq : h = "Bearer " ++ (⟨t⟩ : String) := by
    apply String.ext
    rw [String.data_append, ht]
  rw [hEq, jsSlice_append]

/-- Characterization of the code's bearer-token extraction against the spec's
wording: the extractor fails exactly on headers that are absent or not of the
form `Bearer <token>` with a token that is non-empty after trimming. -/
theorem extractBearerToken_eq_none_iff (a : Option String) :
    extractBearerToken a = none ↔
      ∀ t : String, a = some ("Bearer " ++ t) → jsTrim t = "" := by
  constructor
  · intro h t hat
    subst hat
    by_contra hne
    rw [extractBearerToken, jsStartsWith_append, if_pos rfl, jsSlice_append] at h
    rw [if_neg hne] at h
    exact Option.noConfusion h
  · intro h
    cases a with
    | none => rfl
    | some hd =>
      by_cases hsw : jsStartsWith hd "Bearer " = true
      · have hdec : hd = "Bearer " ++ jsSlice hd 7 := jsStartsWith_decomp hd hsw
        have htr : jsTrim (jsSlice hd 7) = "" := h (jsSlice hd 7) (by rw [← hdec])
        simp [extractBearerToken, hsw, htr]
      · simp [extractBearerToken, hsw]

theorem wf_initialState : WF initialState := by
  refine ⟨?_, ?_, ?_⟩
  · intro sid s h
    simp [initialState, lookupSession] at h
  · intro sid s h
    simp [initialState, lookupSession] at h
  · intro sid1 sid2 s1 s2 h1 h2 hne
    simp [initialState, lookupSession] at h1

theorem wf_handleRequest (st : ServerState) (req : Request) (hok : Bool)
    (h : WF st) : WF (handleRequest st req hok).1 := by
  by_cases ht : headerTruthy req.mcpSessionId = true
  · obtain ⟨sid, hm⟩ : ∃ sid, req.mcpSessionId = some sid := by
      cases hm : req.mcpSessionId with
      | none => rw [hm] at ht; simp [headerTruthy] at ht
      | some s => exact ⟨s, rfl⟩
    have hne : sid ≠ "" := by
      rw [hm] at ht
      simpa [headerTruthy] using ht
    cases hlook : lookupSession st.sessions sid with
    | some s => rw [handleRequest_found st req hok sid s hm hne hlook]; exact h
    | none => rw [handleRequest_notFound st req hok sid hm hne hlook]; exact h
  · have ht2 : headerTruthy req.mcpSessionId = false := by
      cases hb : headerTruthy req.mcpSessionId
      · rfl
      · exact absurd hb ht
    by_cases hpi : req.method = "POST" ∧ req.bodyIsInitialize = true
    · rw [handleRequest_create st req hok ht2 hpi.1 hpi.2]
      cases hauth : extractBearerToken req.authorization with
      | none => rw [createPath_unauthorized st req hok hauth]; exact h
      | some apiKey =>
        cases hok with
        | false =>
          rw [createPath_aborted st req apiKey hauth]
          refine ⟨?_, ?_, ?_⟩
          · intro sid s hl
            exact h.keysMinted sid s hl
          · intro sid s hl
            exact Nat.lt_succ_of_lt (h.instBound sid s hl)
          · intro sid1 sid2 s1 s2 h1 h2 hne
            exact h.instDistinct sid1 sid2 s1 s2 h1 h2 hne
        | true =>
          rw [createPath_success st req apiKey hauth]
          set newSid := randomUUIDModel st.minted with hnew
          refine ⟨?_, ?_, ?_⟩
          · intro sid s hl
            rw [lookupSession_insertSession] at hl
            show sid ∈ (List.range (st.minted + 1)).map randomUUIDModel
            rw [mintedIds_range_succ]
            by_cases hs : sid = newSid
            · exact List.mem_append_right _ (by simp [hs, hnew])
            · rw [if_neg hs] at hl
              exact List.mem_append_left _ (h.keysMinted sid s hl)
          · intro sid s hl
            rw [lookupSession_insertSession] at hl
            by_cases hs : sid = newSid
            · rw [if_pos hs] at hl
              cases hl
              exact Nat.lt_succ_self _
            · rw [if_neg hs] at hl
              exact Nat.lt_succ_of_lt (h.instBound sid s hl)
          · intro sid1 sid2 s1 s2 h1 h2 hne
            rw [lookupSession_insertSession] at h1 h2
            by_cases hs1 : sid1 = newSid
            · rw [if_pos hs1] at h1
              have hs2 : sid2 ≠ newSid := by rw [← hs1]; exact fun hEq => hne hEq.symm
              rw [if_neg hs2] at h2
              cases h1
              exact fun hEq => Nat.lt_irrefl _ (hEq ▸ h.instBound sid2 s2 h2)
            · rw [if_neg hs1] at h1
              by_cases hs2 : sid2 = newSid
              · rw [if_pos hs2] at h2
                cases h2
                exact fun hEq => Nat.lt_irrefl _ (hEq ▸ h.instBound sid1 s1 h1)
              · rw [if_neg hs2] at h2
                exact h.instDistinct sid1 sid2 s1 s2 h1 h2 hne
    · rw [handleRequest_reject400 st req hok ht2 hpi]
      exact h

theorem wf_onclose (st : ServerState) (tsid : Option String) (h : WF st) :
    WF { st with sessions := oncloseHandler st.sessions tsid } := by
  have hsub : ∀ sid s,
      lookupSession (oncloseHandler st.sessions tsid) sid = some s →
      lookupSession st.sessions sid = some s := by
    intro sid s hl
    cases tsid with
    | none => exact hl
    | some r =>
      simp only [oncloseHandler] at hl
      by_cases hc : (r != "" && (lookupSession st.sessions r).isSome) = true
      · rw [if_pos hc, lookupSession_removeSession] at hl
        by_cases hs : sid = r
        · rw [if_pos hs] at hl; cases hl
        · rw [if_neg hs] at hl; exact hl
      · rw [if_neg hc] at hl; exact hl
  refine ⟨?_, ?_, ?_⟩
  · intro sid s hl
    exact h.keysMinted sid s (hsub sid s hl)
  · intro sid s hl
    exact h.instBound sid s (hsub sid s hl)
  · intro sid1 sid2 s1 s2 h1 h2 hne
    exact h.instDistinct sid1 sid2 s1 s2 (hsub sid1 s1 h1) (hsub sid2 s2 h2) hne

theorem reachable_wf (st : ServerState) (h : Reachable st) : WF st := by
  induction h with
  | init => exact wf_initialState
  | step st req hok _ ih => exact wf_handleRequest st req hok ih
  | closeStep st tsid _ ih => exact wf_onclose st tsid ih

theorem mem_removeSession (m : List (String × Session)) (r : String)
    (p : String × Session) :
    p ∈ removeSession m r ↔ p ∈ m ∧ p.1 ≠ r := by
  induction m with
  | nil => simp [removeSession]
  | cons q rest ih =>
    obtain ⟨k, v⟩ := q
    by_cases hk : k = r
    · subst hk
      rw [removeSession, if_pos rfl, ih]
      constructor
      · intro ⟨h1, h2⟩
        exact ⟨List.mem_cons_of_mem _ h1, h2⟩
      · intro ⟨h1, h2⟩
        cases List.mem_cons.1 h1 with
        | inl hEq => exact absurd (by rw [hEq]) h2
        | inr hmem => exact ⟨hmem, h2⟩
    · rw [removeSession, if_neg hk]
      constructor
      · intro h
        cases List.mem_cons.1 h with
        | inl hEq =>
          refine ⟨List.mem_cons.2 (Or.inl hEq), ?_⟩
          rw [hEq]
          exact hk
        | inr hmem =>
          obtain ⟨h1, h2⟩ := ih.1 hmem
          exact ⟨List.mem_cons_of_mem _ h1, h2⟩
      · intro ⟨h1, h2⟩
        cases List.mem_cons.1 h1 with
        | inl hEq => exact List.mem_cons.2 (Or.inl hEq)
        | inr hmem => exact List.mem_cons_of_mem _ (ih.2 ⟨hmem, h2⟩)

theorem drainLoop_drains (l : List String) (m : List (String × Session))
    (hcov : ∀ p ∈ m, p.1 ∈ l) : (drainLoop l m).1 = [] := by
  induction l generalizing m with
  | nil =>
    cases m with
    | nil => rfl
    | cons p rest => exact absurd (hcov p (List.mem_cons_self p rest)) (List.not_mem_nil p.1)
  | cons sid rest ih =>
    show (drainLoop rest (removeSession m sid)).1 = []
    apply ih
    intro p hp
    obtain ⟨hmem, hne⟩ := (mem_removeSession m sid p).1 hp
    cases List.mem_cons.1 (hcov p hmem) with
    | inl hEq => exact absurd hEq hne
    | inr h => exact h

/-- The graceful `shutdown` of `runHttp`, run by itself, removes every entry
from the registry (close failures suppressed) before invoking process exit. -/
theorem shutdownHandler_registry_empty (m : List (String × Session)) :
    (shutdownHandler m).registryAtExit = [] :=
  drainLoop_drains (m.map Prod.fst) m (fun _p hp => List.mem_map_of_mem Prod.fst hp)

theorem bool_eq_false (b : Bool) (h : ¬ b = true) : b = false := by
  cases b with
  | false => rfl
  | true => exact absurd rfl h

theorem lookupSession_preserved (st : ServerState) (req2 : Request) (hok2 : Bool)
    (sid : String) (s : Session) (hwf : WF st)
    (hfound : lookupSession st.sessions sid = some s) :
    lookupSession (handleRequest st req2 hok2).1.sessions sid = some s := by
  by_cases ht : headerTruthy req2.mcpSessionId = true
  · obtain ⟨sid2, hm⟩ : ∃ x, req2.mcpSessionId = some x := by
      cases hm : req2.mcpSessionId with
      | none => rw [hm] at ht; simp [headerTruthy] at ht
      | some x => exact ⟨x, rfl⟩
    have hne2 : sid2 ≠ "" := by
      rw [hm] at ht
      simpa [headerTruthy] using ht
    cases hlook : lookupSession st.sessions sid2 with
    | some s2 => rw [handleRequest_found st req2 hok2 sid2 s2 hm hne2 hlook]; exact hfound
    | none => rw [handleRequest_notFound st req2 hok2 sid2 hm hne2 hlook]; exact hfound
  · have ht2 := bool_eq_false _ ht
    by_cases hpi : req2.method = "POST" ∧ req2.bodyIsInitialize = true
    · rw [handleRequest_create st req2 hok2 ht2 hpi.1 hpi.2]
      cases hauth : extractBearerToken req2.authorization with
      | none => rw [createPath_unauthorized st req2 hok2 hauth]; exact hfound
      | some apiKey =>
        cases hok2 with
        | false => rw [createPath_aborted st req2 apiKey hauth]; exact hfound
        | true =>
          rw [createPath_success st req2 apiKey hauth]
          have hmem : sid ∈ mintedIds st := hwf.keysMinted sid s hfound
          have hne : sid ≠ randomUUIDModel st.minted := by
            intro hEq
            exact randomUUIDModel_minted_fresh st (hEq ▸ hmem)
          show lookupSession
            (insertSession st.sessions (randomUUIDModel st.minted) _) sid = some s
          rw [lookupSession_insertSession, if_neg hne]
          exact hfound
    · rw [handleRequest_reject400 st req2 hok2 ht2 hpi]; exact hfound

theorem oncloseHandler_of_lookup_none (m : List (String × Session)) (sid : String)
    (h : lookupSession m sid = none) :
    oncloseHandler m (some sid) = m := by
  simp [oncloseHandler, h]

theorem oncloseHandler_of_lookup_some (m : List (String × Session)) (sid : String)
    (s : Session) (hne : sid ≠ "") (h : lookupSession m sid = some s) :
    oncloseHandler m (some sid) = removeSession m sid := by
  simp [oncloseHandler, h, hne]

/-- Claim C1: for every request whose session header matches an active session,
the request is routed to that session's own transport and protocol-server
instance, bound to the client handle of that session's initialize credential;
the bound handle is fixed at creation (no step of the server replaces an
existing registry entry), never shared with any other session (distinct
sessions are bound to distinct protocol-server instances), and the routing is
unchanged when the continuation request carries a different or absent
`Authorization` header. -/
theorem c1_cross_session_credential_isolation
    (st : ServerState) (req : Request) (hok : Bool) (sid : String) (s : Session)
    (hreach : Reachable st)
    (hhdr : req.mcpSessionId = some sid) (hne : sid ≠ "")
    (hfound : lookupSession st.sessions sid = some s) :
    handleRequest st req hok = (st, HttpResponse.routed sid s)
    ∧ (∀ auth, handleRequest st { req with authorization := auth } hok
        = (st, HttpResponse.routed sid s))
    ∧ (∀ req2 hok2, lookupSession (handleRequest st req2 hok2).1.sessions sid = some s)
    ∧ (∀ sid2 s2, lookupSession st.sessions sid2 = some s2 → sid2 ≠ sid →
        s2.serverInstance ≠ s.serverInstance) := by
  have hwf := reachable_wf st hreach
  refine ⟨handleRequest_found st req hok sid s hhdr hne hfound, ?_, ?_, ?_⟩
  · intro auth
    exact handleRequest_found st { req with authorization := auth } hok sid s
      (by simp [hhdr]) hne hfound
  · intro req2 hok2
    exact lookupSession_preserved st req2 hok2 sid s hwf hfound
  · intro sid2 s2 h2 hne2
    exact hwf.instDistinct sid2 sid s2 s h2 hfound hne2

/-- Claim C1 witness: in the state reached by one successful initialize with
credential `secretA`, a continuation request carrying the minted session id
`"u"` and no `Authorization` header is routed to that session's record. -/
theorem c1_witness :
    handleRequest stOneSession contReqA true
      = (stOneSession, HttpResponse.routed "u" sessionA) :=
  (c1_cross_session_credential_isolation stOneSession contReqA true "u" sessionA
    (Reachable.step initialState reqInitA true Reachable.init)
    rfl (by decide) (by decide)).1

/-- Claim C2 (code bug): the graceful shutdown of `runHttp` is supposed to
close and remove every registry entry and stop the listener before process
exit; but `src/index.ts` registers `() => process.exit(0)` for SIGINT/SIGTERM
at module load, before `runHttp` registers `shutdown`, and Node runs signal
listeners in registration order with `process.exit` never returning. With one
active session, delivering the signal therefore exits with code 0 while the
registry still holds the session and no close/remove/listener-stop event has
happened — whereas `shutdownHandler` alone (the intended behaviour, last
conjunct) would have drained every entry, errors suppressed. -/
theorem c2_shutdown_preempted_by_entry_point_exit :
    (emitSignal httpModeSignalListeners registryOneSession).exited = some 0
    ∧ (emitSignal httpModeSignalListeners registryOneSession).registryAtExit
        = registryOneSession
    ∧ registryOneSession ≠ []
    ∧ (emitSignal httpModeSignalListeners registryOneSession).events
        = [ShutdownEvent.processExit 0]
    ∧ (shutdownHandler registryOneSession).events
        = [ShutdownEvent.closeAttempt "u" false, ShutdownEvent.removedFromRegistry "u",
           ShutdownEvent.listenerClosed, ShutdownEvent.processExit 0]
    ∧ (∀ m : List (String × Session), (shutdownHandler m).registryAtExit = []) := by
  refine ⟨by decide, by decide, by decide, by decide, by decide, ?_⟩
  intro m
  exact shutdownHandler_registry_empty m

/-- Claim C3: an initialize request on the create path whose `Authorization`
header is absent or malformed — not of the form `Bearer <token>` with a token
that is non-empty after trimming, which is exactly when `extractBearerToken`
fails (see `extractBearerToken_eq_none_iff`) — is answered with the 401
envelope naming the required header, and the returned state is exactly the
incoming one: no client handle, transport or protocol-server instance is
constructed (all construction counters unchanged) and the session registry is
unchanged. -/
theorem c3_unauthorized_initialize_gated
    (st : ServerState) (req : Request) (hok : Bool)
    (hhdr : headerTruthy req.mcpSessionId = false)
    (hpost : req.method = "POST") (hinit : req.bodyIsInitialize = true)
    (hauth : ∀ t : String, req.authorization = some ("Bearer " ++ t) → jsTrim t = "") :
    handleRequest st req hok =
      (st, sendJsonRpcError 401
        "Unauthorized: provide a Resend API key via Authorization: Bearer <key>") := by
  have hnone : extractBearerToken req.authorization = none :=
    (extractBearerToken_eq_none_iff req.authorization).2 hauth
  rw [handleRequest_create st req hok hhdr hpost hinit,
    createPath_unauthorized st req hok hnone]

/-- Claim C3 witness: an initialize request with no `Authorization` header at
all is rejected with the 401 envelope and the state is untouched. -/
theorem c3_witness :
    handleRequest initialState
      { method := "POST", mcpSessionId := none,
        authorization := none, bodyIsInitialize := true } true
      = (initialState, sendJsonRpcError 401
          "Unauthorized: provide a Resend API key via Authorization: Bearer <key>") :=
  c3_unauthorized_initialize_gated initialState
    { method := "POST", mcpSessionId := none,
      authorization := none, bodyIsInitialize := true } true
    rfl rfl rfl (fun _t ht => Option.noConfusion ht)

/-- Claim C4 counterexample: the claim says that, with no session header, the
create path is taken if and only if the request is an initialize request; but
a DELETE request whose body is an initialize request (no session header, valid
bearer credential) is rejected with 400 and no session is created, because the
code additionally requires `req.method === 'POST'`. -/
theorem c4_counterexample_non_post_init_request :
    ({ method := "DELETE", mcpSessionId := none,
       authorization := some "Bearer secretA", bodyIsInitialize := true } :
        Request).bodyIsInitialize = true
    ∧ handleRequest initialState
        { method := "DELETE", mcpSessionId := none,
          authorization := some "Bearer secretA", bodyIsInitialize := true } true
        = (initialState,
           sendJsonRpcError 400 "Bad Request: No valid session ID provided") := by
  refine ⟨rfl, ?_⟩
  decide

/-- Claim C4 as amended: for every request with no session-identifying header,
the create path (auth check, session creation or aborted handshake) is taken
if and only if the request is a POST initialize request; any other such
request is rejected with 400 Bad Request and the state — in particular the
session registry — is unchanged. -/
theorem c4_amended_create_iff_post_init_request
    (st : ServerState) (req : Request) (hok : Bool)
    (hhdr : headerTruthy req.mcpSessionId = false) :
    (isCreatePathOutcome (handleRequest st req hok).2 = true
      ↔ (req.method = "POST" ∧ req.bodyIsInitialize = true))
    ∧ (¬(req.method = "POST" ∧ req.bodyIsInitialize = true) →
        handleRequest st req hok =
          (st, sendJsonRpcError 400 "Bad Request: No valid session ID provided")) := by
  constructor
  · constructor
    · intro hout
      by_contra hnot
      rw [handleRequest_reject400 st req hok hhdr hnot] at hout
      simp [isCreatePathOutcome, sendJsonRpcError] at hout
    · intro hpi
      rw [handleRequest_create st req hok hhdr hpi.1 hpi.2]
      cases hauth : extractBearerToken req.authorization with
      | none =>
        rw [createPath_unauthorized st req hok hauth]
        rfl
      | some apiKey =>
        cases hok with
        | false => rw [createPath_aborted st req apiKey hauth]; rfl
        | true => rw [createPath_success st req apiKey hauth]; rfl
  · intro hnot
    exact handleRequest_reject400 st req hok hhdr hnot

/-- Claim C4 amended witness: at process start, a POST initialize request with
no session header does take the create path. -/
theorem c4_amended_witness :
    isCreatePathOutcome (handleRequest initialState reqInitA true).2 = true :=
  (c4_amended_create_iff_post_init_request initialState reqInitA true rfl).1.2
    ⟨rfl, rfl⟩

/-- Claim C5: on the create path with a valid bearer credential, an aborted
handshake registers nothing (the registry is exactly the incoming one and the
response reports the failed handshake), while a completed handshake registers
the freshly minted identifier bound to a fully wired session record (the
credential's client handle and the new protocol-server instance), which a
lookup then observes in full. -/
theorem c5_registration_only_after_handshake
    (st : ServerState) (req : Request) (apiKey : String)
    (hhdr : headerTruthy req.mcpSessionId = false)
    (hpost : req.method = "POST") (hinit : req.bodyIsInitialize = true)
    (hauth : extractBearerToken req.authorization = some apiKey) :
    handleRequest st req false =
      ({ st with
          clientsConstructed := st.clientsConstructed + 1
          transportsConstructed := st.transportsConstructed + 1
          nextInstance := st.nextInstance + 1 },
       HttpResponse.handshakeFailed)
    ∧ handleRequest st req true =
      ({ sessions := insertSession st.sessions (randomUUIDModel st.minted)
            { apiKey := apiKey, serverInstance := st.nextInstance, closeFails := false }
         minted := st.minted + 1
         nextInstance := st.nextInstance + 1
         clientsConstructed := st.clientsConstructed + 1
         transportsConstructed := st.transportsConstructed + 1 },
       HttpResponse.initialized (randomUUIDModel st.minted)
         { apiKey := apiKey, serverInstance := st.nextInstance, closeFails := false })
    ∧ lookupSession
        (insertSession st.sessions (randomUUIDModel st.minted)
          { apiKey := apiKey, serverInstance := st.nextInstance, closeFails := false })
        (randomUUIDModel st.minted)
        = some { apiKey := apiKey, serverInstance := st.nextInstance, closeFails := false } := by
  refine ⟨?_, ?_, ?_⟩
  · rw [handleRequest_create st req false hhdr hpost hinit,
      createPath_aborted st req apiKey hauth]
  · rw [handleRequest_create st req true hhdr hpost hinit,
      createPath_success st req apiKey hauth]
  · rw [lookupSession_insertSession, if_pos rfl]

/-- Claim C5 witness: at process start, an aborted handshake for `reqInitA`
leaves no registry entry. -/
theorem c5_witness :
    handleRequest initialState reqInitA false =
      ({ initialState with
          clientsConstructed := initialState.clientsConstructed + 1
          transportsConstructed := initialState.transportsConstructed + 1
          nextInstance := initialState.nextInstance + 1 },
       HttpResponse.handshakeFailed) :=
  (c5_registration_only_after_handshake initialState reqInitA "secretA"
    rfl rfl rfl (by decide)).1

/-- Claim C6: when a session's channel closes, its identifier is removed from
the registry; a subsequent request carrying that identifier on the resulting
state gets the 404 envelope; and both the close callback and the underlying
removal are idempotent — repeating them leaves the registry unchanged. -/
theorem c6_close_removes_session_idempotently
    (st : ServerState) (sid : String) (req : Request) (hok : Bool)
    (hne : sid ≠ "") (hhdr : req.mcpSessionId = some sid) :
    lookupSession (oncloseHandler st.sessions (some sid)) sid = none
    ∧ oncloseHandler (oncloseHandler st.sessions (some sid)) (some sid)
        = oncloseHandler st.sessions (some sid)
    ∧ removeSession (removeSession st.sessions sid) sid = removeSession st.sessions sid
    ∧ handleRequest { st with sessions := oncloseHandler st.sessions (some sid) } req hok
        = ({ st with sessions := oncloseHandler st.sessions (some sid) },
           HttpResponse.jsonError 404 sessionNotFoundBody) := by
  have hgone : lookupSession (oncloseHandler st.sessions (some sid)) sid = none := by
    cases hl : lookupSession st.sessions sid with
    | none =>
      rw [oncloseHandler_of_lookup_none st.sessions sid hl]
      exact hl
    | some s =>
      rw [oncloseHandler_of_lookup_some st.sessions sid s hne hl,
        lookupSession_removeSession, if_pos rfl]
  refine ⟨hgone, ?_, removeSession_idem st.sessions sid, ?_⟩
  · exact oncloseHandler_of_lookup_none _ sid hgone
  · exact handleRequest_notFound _ req hok sid hhdr hne hgone

/-- Claim C6 witness: closing the single active session of `stOneSession`
removes `"u"` from the registry, and a follow-up request with that identifier
gets the 404 envelope. -/
theorem c6_witness :
    lookupSession (oncloseHandler stOneSession.sessions (some "u")) "u" = none
    ∧ handleRequest
        { stOneSession with sessions := oncloseHandler stOneSession.sessions (some "u") }
        contReqA true
      = ({ stOneSession with
            sessions := oncloseHandler stOneSession.sessions (some "u") },
         HttpResponse.jsonError 404 sessionNotFoundBody) :=
  ⟨(c6_close_removes_session_idempotently stOneSession "u" contReqA true
      (by decide) rfl).1,
   (c6_close_removes_session_idempotently stOneSession "u" contReqA true
      (by decide) rfl).2.2.2⟩

theorem handleRequestFull_agrees_outside_prototype
    (st : ServerState) (req : Request) (hok : Bool)
    (hnp : req.mcpSessionId.getD "" ∉ objectPrototypeKeys) :
    handleRequestFull st req hok
      = ((handleRequest st req hok).1, HttpOutcome.ok (handleRequest st req hok).2) := by
  by_cases ht : headerTruthy req.mcpSessionId = true
  · cases hl : lookupSession st.sessions (req.mcpSessionId.getD "") with
    | some s => simp [handleRequestFull, handleRequest, ht, readSessionsProperty, hl]
    | none => simp [handleRequestFull, handleRequest, ht, readSessionsProperty, hl, hnp]
  · have ht2 : headerTruthy req.mcpSessionId = false := bool_eq_false _ ht
    by_cases hb : (req.method == "POST" && req.bodyIsInitialize) = true
    · simp [handleRequestFull, handleRequest, ht2, hb]
    · have hb2 : (req.method == "POST" && req.bodyIsInitialize) = false :=
        bool_eq_false _ hb
      simp [handleRequestFull, handleRequest, ht2, hb2]

/-- Claim C7 (code bug): the 400 half of the catalog holds, but the 404 half
does not hold of the program for every unregistered session header. The
`sessions` record is a plain object literal, so for a header naming an
`Object.prototype` member — here the never-registered `"constructor"` — the
guard `sessions[sessionId]` reads the inherited member, which is truthy: the
code takes the routing branch and `transport.handleRequest` throws a
TypeError instead of producing the claimed 404 envelope. The intended
behaviour, visible in the code's own 404 branch and exhibited by the last
conjunct for the ordinary unregistered identifier `"u"`, is the
"Session not found" envelope for every unregistered identifier. -/
theorem c7_prototype_key_crashes_instead_of_not_found :
    lookupSession initialState.sessions "constructor" = none
    ∧ handleRequestFull initialState reqProtoKey true
        = (initialState, HttpOutcome.typeErrorCrash)
    ∧ (handleRequestFull initialState reqProtoKey true).2
        ≠ HttpOutcome.ok (HttpResponse.jsonError 404 sessionNotFoundBody)
    ∧ handleRequestFull initialState
        { method := "GET", mcpSessionId := none,
          authorization := none, bodyIsInitialize := false } true
        = (initialState, HttpOutcome.ok (HttpResponse.jsonError 400
            { jsonrpc := "2.0", code := -32000,
              message := "Bad Request: No valid session ID provided", rpcId := none }))
    ∧ handleRequestFull initialState contReqA true
        = (initialState, HttpOutcome.ok (HttpResponse.jsonError 404
            { jsonrpc := "2.0", code := -32001,
              message := "Session not found", rpcId := none })) := by
  refine ⟨rfl, by decide, by decide, by decide, by decide⟩

/-- Claim C8: every successful session creation mints an identifier that was
never minted before in the process lifetime (so distinct from every earlier
session's identifier, including already-closed ones, whose identifiers remain
in the minted history) and that names no currently registered session; the
minted history is extended by exactly that identifier. `randomUUID` is
modelled as an injective fresh-identifier source. -/
theorem c8_minted_identifier_fresh
    (st : ServerState) (req : Request) (apiKey : String)
    (hreach : Reachable st)
    (hhdr : headerTruthy req.mcpSessionId = false)
    (hpost : req.method = "POST") (hinit : req.bodyIsInitialize = true)
    (hauth : extractBearerToken req.authorization = some apiKey) :
    (handleRequest st req true).2
        = HttpResponse.initialized (randomUUIDModel st.minted)
            { apiKey := apiKey, serverInstance := st.nextInstance, closeFails := false }
    ∧ randomUUIDModel st.minted ∉ mintedIds st
    ∧ lookupSession st.sessions (randomUUIDModel st.minted) = none
    ∧ mintedIds (handleRequest st req true).1
        = mintedIds st ++ [randomUUIDModel st.minted] := by
  have hwf := reachable_wf st hreach
  have hcre := handleRequest_create st req true hhdr hpost hinit
  refine ⟨?_, randomUUIDModel_minted_fresh st, ?_, ?_⟩
  · rw [hcre, createPath_success st req apiKey hauth]
  · cases hl : lookupSession st.sessions (randomUUIDModel st.minted) with
    | none => rfl
    | some s2 =>
      exact absurd (hwf.keysMinted _ s2 hl) (randomUUIDModel_minted_fresh st)
  · rw [hcre, createPath_success st req apiKey hauth]
    show (List.range (st.minted + 1)).map randomUUIDModel = _
    rw [mintedIds_range_succ]
    rfl

/-- Claim C8 witness: after the `secretA` session is created, a second
initialize with `secretB` mints the identifier `"uu"`, which is distinct from
the previously minted `"u"` and names no registered session. -/
theorem c8_witness :
    (handleRequest stOneSession reqInitB true).2
        = HttpResponse.initialized (randomUUIDModel stOneSession.minted)
            { apiKey := "secretB", serverInstance := stOneSession.nextInstance,
              closeFails := false }
    ∧ randomUUIDModel stOneSession.minted ∉ mintedIds stOneSession :=
  ⟨(c8_minted_identifier_fresh stOneSession reqInitB "secretB"
      (Reachable.step initialState reqInitA true Reachable.init)
      rfl rfl rfl (by decide)).1,
   (c8_minted_identifier_fresh stOneSession reqInitB "secretB"
      (Reachable.step initialState reqInitA true Reachable.init)
      rfl rfl rfl (by decide)).2.1⟩

/-- Claim C9: the stdio (local) transport constructs exactly one
protocol-server instance and one duplex channel for the process lifetime,
connects them, performs no authentication check, and never creates, reads or
removes a session-registry entry. -/
theorem c9_stdio_frame_property :
    (runStdioTrace.filter isServerConstruction).length = 1
    ∧ runStdioTrace.filter isRegistryEffect = []
    ∧ runStdioTrace.filter isAuthCheck = []
    ∧ (runStdioTrace.filter isChannelConstruction).length = 1
    ∧ StdioEffect.connectChannel ∈ runStdioTrace := by
  decide

/-- Claim C10: a request whose `mcp-session-id` header is present but equal to
the empty string is handled exactly as if the header were absent (so it may
take the create path when it is a POST initialize request with a valid bearer
credential), and in particular never receives the 404 session-not-found
response. -/
theorem c10_empty_session_header_treated_as_absent
    (st : ServerState) (req : Request) (hok : Bool)
    (hhdr : req.mcpSessionId = some "") :
    handleRequest st req hok = handleRequest st { req with mcpSessionId := none } hok
    ∧ (∀ b, (handleRequest st req hok).2 ≠ HttpResponse.jsonError 404 b) := by
  have hht : headerTruthy req.mcpSessionId = false := by simp [hhdr, headerTruthy]
  have heq : handleRequest st req hok
      = handleRequest st { req with mcpSessionId := none } hok := by
    simp [handleRequest, hhdr, headerTruthy, createPath]
  refine ⟨heq, ?_⟩
  intro b hcontra
  by_cases hpi : req.method = "POST" ∧ req.bodyIsInitialize = true
  · rw [handleRequest_create st req hok hht hpi.1 hpi.2] at hcontra
    cases hauth : extractBearerToken req.authorization with
    | none =>
      rw [createPath_unauthorized st req hok hauth] at hcontra
      simp [sendJsonRpcError] at hcontra
    | some apiKey =>
      cases hok with
      | false =>
        rw [createPath_aborted st req apiKey hauth] at hcontra
        simp at hcontra
      | true =>
        rw [createPath_success st req apiKey hauth] at hcontra
        simp at hcontra
  · rw [handleRequest_reject400 st req hok hht hpi] at hcontra
    simp [sendJsonRpcError] at hcontra

/-- Claim C10 witness: a POST initialize request with an empty `mcp-session-id`
header behaves exactly as the same request with the header absent. -/
theorem c10_witness :
    handleRequest initialState
      { method := "POST", mcpSessionId := some "",
        authorization := some "Bearer secretA", bodyIsInitialize := true } true
    = handleRequest initialState
      { method := "POST", mcpSessionId := none,
        authorization := some "Bearer secretA", bodyIsInitialize := true } true :=
  (c10_empty_session_header_treated_as_absent initialState
    { method := "POST", mcpSessionId := some "",
      authorization := some "Bearer secretA", bodyIsInitialize := true } true rfl).1

end ResendMcp
